import Mathlib

/-!
Shallow embedding of `src/utils/stripe.ts` (Corely.io).

Timestamps are modelled as `Int`, in milliseconds since the epoch, matching
JavaScript `Date.getTime()`; Stripe subscription period fields are epoch
seconds, converted to milliseconds by `* 1000` exactly as the source does.
External collaborators (Clerk auth, Prisma, Stripe) are modelled as fields of
an `Env` record; `Date.prototype.toLocaleDateString` is modelled as an
environment-supplied formatting function `formatDate : Int → String`.
Contacts with the Subscription collaborator (`stripe.subscriptions.list`) and
the Usage collaborator (`prisma.lessonPlan.count`) are recorded in a call
trace, so that "without contacting X" claims are statable.
-/

/-- `interface StripeSubscription` from `src/utils/stripe.ts` lines 7-12. -/
structure StripeSubscription where
  status : String
  current_period_start : Int
  current_period_end : Int
  created : Int
deriving DecidableEq, Repr

/-- A persisted user row (`prisma.user`): id plus the optional
`stripe_customer_id` column. `none` models SQL NULL; the source tests the
field with JavaScript truthiness, under which the empty string is also falsy. -/
structure DBUser where
  id : String
  stripe_customer_id : Option String
deriving DecidableEq, Repr

/-- A Clerk email address record (`user.emailAddresses[i]`). -/
structure EmailAddress where
  emailAddress : String
deriving DecidableEq, Repr

/-- The Clerk `currentUser()` payload, restricted to the fields the source
reads. -/
structure ClerkUser where
  id : String
  emailAddresses : List EmailAddress
  firstName : String
  lastName : String
deriving DecidableEq, Repr

/-- A `prisma.lessonPlan` row, restricted to the fields the usage-count query
reads: owning user id and creation timestamp (milliseconds). -/
structure LessonPlan where
  userId : String
  createdAt : Int
deriving DecidableEq, Repr

/-- The record returned by `checkLessonPlanCreationEligibility`
(lines 123-127). `remainingGenerations` is an `Int`, mirroring the JavaScript
number. -/
structure EligibilityDecision where
  isEligible : Bool
  message : String
  remainingGenerations : Int
deriving DecidableEq, Repr

/-- The record returned by `hasSubscription` (lines 15-18). -/
structure SubscriptionResult where
  isSubscribed : Bool
  subscriptionData : List StripeSubscription
deriving DecidableEq, Repr

/-- A contact with one of the two billing collaborators the spec singles out:
`stripe.subscriptions.list` (Subscription) and `prisma.lessonPlan.count`
(Usage). -/
inductive CollabCall where
  | subList (customerId : String)
  | usageCount (userId : String) (windowStart windowEnd : Int)
deriving DecidableEq, Repr

/-- A state-changing effect of `createCustomerIfNull`:
`stripe.customers.create` or `prisma.user.update`. -/
inductive Effect where
  | stripeCreate (email name : String)
  | dbUpdate (userId customerId : String)
deriving DecidableEq, Repr

/-- The ambient environment a request executes in: the auth context, the
database, the Stripe account state, and the current time. -/
structure Env where
  userId : Option String
  currentUser : Option ClerkUser
  dbUser : String → Option DBUser
  subscriptions : String → List StripeSubscription
  lessonPlans : List LessonPlan
  now : Int
  formatDate : Int → String
  newCustomerId : String

/-- `hasSubscription` (lines 15-50), instrumented with the trace of
Subscription-collaborator contacts. `!userDB?.stripe_customer_id` is
JavaScript truthiness: null/undefined or the empty string short-circuit to
the not-subscribed result without contacting Stripe. -/
def hasSubscriptionT (env : Env) : SubscriptionResult × List CollabCall :=
  match env.userId, env.currentUser with
  | some userId, some _user =>
    match env.dbUser userId with
    | some userDB =>
      match userDB.stripe_customer_id with
      | some cid =>
        if cid = "" then
          ({ isSubscribed := false, subscriptionData := [] }, [])
        else
          let subs := env.subscriptions cid
          ({ isSubscribed := decide (subs.length > 0), subscriptionData := subs },
            [CollabCall.subList cid])
      | none => ({ isSubscribed := false, subscriptionData := [] }, [])
    | none => ({ isSubscribed := false, subscriptionData := [] }, [])
  | _, _ => ({ isSubscribed := false, subscriptionData := [] }, [])

/-- `hasSubscription` without its collaborator trace. -/
def hasSubscription (env : Env) : SubscriptionResult :=
  (hasSubscriptionT env).1

/-- The not-authenticated message of lines 133-134 and 148-149. -/
def authRequiredMessage : String :=
  "You must be logged in to see how many lesson plans you can make."

/-- The decision returned when no identity or no user record resolves
(lines 131-136 and 146-151). -/
def notEligibleAuth : EligibilityDecision :=
  { isEligible := false, message := authRequiredMessage, remainingGenerations := 0 }

/-- Lines 162-170: `isSubscribed` is true exactly when the first returned
subscription has status `"active"`. -/
def billingIsSubscribed : List StripeSubscription → Bool
  | subscription :: _ => subscription.status = "active"
  | [] => false

/-- Lines 162-170: `periodStart` is the first subscription's
`current_period_start * 1000`, or `now - 30 * 24 * 60 * 1000` when the
subscription list is empty. -/
def billingPeriodStart (subs : List StripeSubscription) (now : Int) : Int :=
  match subs with
  | subscription :: _ => subscription.current_period_start * 1000
  | [] => now - 30 * 24 * 60 * 1000

/-- Lines 162-170: `periodEnd` is the first subscription's
`current_period_end * 1000`, or `now` when the subscription list is empty. -/
def billingPeriodEnd (subs : List StripeSubscription) (now : Int) : Int :=
  match subs with
  | subscription :: _ => subscription.current_period_end * 1000
  | [] => now

/-- The rows selected by the `prisma.lessonPlan.count` query of lines 172-180:
`userId` equal and `createdAt` between `periodStart` (gte) and `periodEnd`
(lte), both inclusive. -/
def countedPlans (plans : List LessonPlan) (uid : String)
    (periodStart periodEnd : Int) : List LessonPlan :=
  plans.filter (fun p =>
    p.userId = uid ∧ periodStart ≤ p.createdAt ∧ p.createdAt ≤ periodEnd)

/-- `prisma.lessonPlan.count` of lines 172-180. -/
def countLessonPlans (plans : List LessonPlan) (uid : String)
    (periodStart periodEnd : Int) : Nat :=
  (countedPlans plans uid periodStart periodEnd).length

/-- The exhausted-quota message for a subscriber (line 195). -/
def subscriberExhaustedMessage (resetDate : String) : String :=
  s!"You have reached the maximum number of lesson plans (30) for this subscription period. Reset Date: {resetDate}"

/-- The exhausted-quota message for the free tier (line 196). -/
def freeTierExhaustedMessage (resetDate : String) : String :=
  s!"You have reached the maximum number of lesson plan generations (10) for the free tier. You can generate more starting {resetDate}"

/-- Line 154+162: the `stripeSubscriptionData.subscriptionData` list the
resolved body works with. -/
def subscriptionDataOf (env : Env) : List StripeSubscription :=
  (hasSubscriptionT env).1.subscriptionData

/-- Lines 162-170: the `isSubscribed` flag of the evaluation. -/
def isSubscribedOf (env : Env) : Bool :=
  billingIsSubscribed (subscriptionDataOf env)

/-- Lines 162-170: the `periodStart` of the evaluation. -/
def periodStartOf (env : Env) : Int :=
  billingPeriodStart (subscriptionDataOf env) env.now

/-- Lines 162-170: the `periodEnd` of the evaluation. -/
def periodEndOf (env : Env) : Int :=
  billingPeriodEnd (subscriptionDataOf env) env.now

/-- Lines 172-180: `lessonPlanGenerationCount` as an integer. -/
def generationCountOf (env : Env) (userDB : DBUser) : Int :=
  countLessonPlans env.lessonPlans userDB.id (periodStartOf env) (periodEndOf env)

/-- Line 182: `const limit = isSubscribed ? 30 : 10`. -/
def limitOf (env : Env) : Int :=
  if isSubscribedOf env then 30 else 10

/-- Line 183: `Math.max(0, limit - lessonPlanGenerationCount)`. -/
def remainingOf (env : Env) (userDB : DBUser) : Int :=
  max 0 (limitOf env - generationCountOf env userDB)

/-- Lines 186-190: the formatted reset date used in the exhausted branch. -/
def resetDateOf (env : Env) : String :=
  if isSubscribedOf env then env.formatDate (periodEndOf env)
  else env.formatDate (env.now + 24 + 60 * 60 * 1000)

/-- Lines 154-207 of `checkLessonPlanCreationEligibility`: the body executed
once the identity and user record have resolved, instrumented with the trace
of Subscription and Usage collaborator contacts. -/
def eligibilityBody (env : Env) (userDB : DBUser) :
    EligibilityDecision × List CollabCall :=
  let calls := (hasSubscriptionT env).2 ++
    [CollabCall.usageCount userDB.id (periodStartOf env) (periodEndOf env)]
  let remainingGenerations := remainingOf env userDB
  if remainingGenerations = 0 then
    ({ isEligible := false,
       message :=
         if isSubscribedOf env then subscriberExhaustedMessage (resetDateOf env)
         else freeTierExhaustedMessage (resetDateOf env),
       remainingGenerations := 0 }, calls)
  else
    let plural := if remainingGenerations ≠ 1 then "s" else ""
    let cycle := if isSubscribedOf env then "billing cycle" else "month"
    ({ isEligible := true,
       message := s!"You have {remainingGenerations} lesson plan generation{plural} remaining for this {cycle}",
       remainingGenerations := remainingGenerations }, calls)

/-- `checkLessonPlanCreationEligibility` (lines 123-208), instrumented with
the trace of Subscription and Usage collaborator contacts: the early
not-authenticated returns of lines 128-152, then the resolved body. -/
def checkLessonPlanCreationEligibilityT (env : Env) :
    EligibilityDecision × List CollabCall :=
  match env.userId, env.currentUser with
  | some userId, some _user =>
    match env.dbUser userId with
    | none => (notEligibleAuth, [])
    | some userDB => eligibilityBody env userDB
  | _, _ => (notEligibleAuth, [])

/-- `checkLessonPlanCreationEligibility` without its collaborator trace. -/
def checkLessonPlanCreationEligibility (env : Env) : EligibilityDecision :=
  (checkLessonPlanCreationEligibilityT env).1

/-- The create-then-record tail of `createCustomerIfNull` (lines 67-77):
`stripe.customers.create` with the user's first email address and full name,
then `prisma.user.update` storing the new customer id. Accessing
`user.emailAddresses[0].emailAddress` on an empty list is a JavaScript
`TypeError`, modelled as an error result. -/
def createCustomerFresh (env : Env) (user : ClerkUser) :
    Except String (String × List Effect) :=
  match user.emailAddresses with
  | [] => Except.error "TypeError: cannot read emailAddress of undefined"
  | e :: _ =>
    Except.ok (env.newCustomerId,
      [Effect.stripeCreate e.emailAddress (user.firstName ++ " " ++ user.lastName),
       Effect.dbUpdate user.id env.newCustomerId])

/-- `createCustomerIfNull` (lines 52-78). Returns the resulting customer id
together with the list of state-changing effects performed; `throw` is
modelled as `Except.error`. `dbUser?.stripe_customer_id` is JavaScript
truthiness: the stored id is returned only when present and non-empty. -/
def createCustomerIfNull (env : Env) : Except String (String × List Effect) :=
  match env.currentUser with
  | none => Except.error "User not authenticated"
  | some user =>
    match env.dbUser user.id with
    | some dbUser =>
      match dbUser.stripe_customer_id with
      | some cid =>
        if cid = "" then createCustomerFresh env user
        else Except.ok (cid, [])
      | none => createCustomerFresh env user
    | none => createCustomerFresh env user

/-! ### Concrete environments for evaluation -/

/-- A sample Clerk user. -/
def demoUser : ClerkUser :=
  { id := "user_1", emailAddresses := [{ emailAddress := "demo@example.com" }],
    firstName := "Demo", lastName := "User" }

/-- A persisted user row with no Stripe customer. -/
def demoDBFree : DBUser := { id := "user_1", stripe_customer_id := none }

/-- A persisted user row linked to Stripe customer `cus_1`. -/
def demoDBCus : DBUser := { id := "user_1", stripe_customer_id := some "cus_1" }

/-- An active subscription with period `[1000, 2000]` in epoch seconds. -/
def activeSub : StripeSubscription :=
  { status := "active", current_period_start := 1000,
    current_period_end := 2000, created := 500 }

/-- A canceled subscription with period `[1000, 2000]` in epoch seconds. -/
def canceledSub : StripeSubscription :=
  { status := "canceled", current_period_start := 1000,
    current_period_end := 2000, created := 500 }

/-- A base environment: authenticated `user_1` with no Stripe customer, no
usage events, `now` = 50,000,000 ms, and date formatting that shows the raw
timestamp. -/
def baseEnv : Env :=
  { userId := some "user_1"
    currentUser := some demoUser
    dbUser := fun i => if i = "user_1" then some demoDBFree else none
    subscriptions := fun _ => []
    lessonPlans := []
    now := 50000000
    formatDate := fun t => toString t
    newCustomerId := "cus_new" }

/-- `baseEnv` with 5 usage events inside the trailing window. -/
def envFree5 : Env :=
  { baseEnv with
      lessonPlans := List.replicate 5 { userId := "user_1", createdAt := 49000000 } }

/-- A field-for-field copy of `envFree5`, for the repeated-call scenario. -/
def envFree5Again : Env :=
  { baseEnv with
      lessonPlans := List.replicate 5 { userId := "user_1", createdAt := 49000000 } }

/-- `baseEnv` with 10 usage events inside the trailing window: the free quota
is exhausted. -/
def envFree10 : Env :=
  { baseEnv with
      lessonPlans := List.replicate 10 { userId := "user_1", createdAt := 49000000 } }

/-- An environment with no authenticated identity. -/
def envUnauth : Env :=
  { baseEnv with userId := none, currentUser := none }

/-- Authenticated `user_1` linked to `cus_1`, no subscriptions. -/
def envCus : Env :=
  { baseEnv with dbUser := fun i => if i = "user_1" then some demoDBCus else none }

/-- Authenticated `user_1` linked to `cus_1` whose only subscription is
canceled, with 3 usage events inside the subscription period
`[1000000, 2000000]` ms. -/
def envCanceled : Env :=
  { baseEnv with
      dbUser := fun i => if i = "user_1" then some demoDBCus else none
      subscriptions := fun c => if c = "cus_1" then [canceledSub] else []
      lessonPlans := List.replicate 3 { userId := "user_1", createdAt := 1500000 } }

/-- Authenticated `user_1` linked to `cus_1` with an active subscription and
30 usage events inside the subscription period. -/
def envActive30 : Env :=
  { baseEnv with
      dbUser := fun i => if i = "user_1" then some demoDBCus else none
      subscriptions := fun c => if c = "cus_1" then [activeSub] else []
      lessonPlans := List.replicate 30 { userId := "user_1", createdAt := 1500000 } }

/-! ### Helper lemmas -/

theorem checkT_resolved (env : Env) (uid : String) (u : ClerkUser) (udb : DBUser)
    (hAuth : env.userId = some uid) (hUser : env.currentUser = some u)
    (hDB : env.dbUser uid = some udb) :
    checkLessonPlanCreationEligibilityT env = eligibilityBody env udb := by
  simp only [checkLessonPlanCreationEligibilityT, hAuth, hUser, hDB]

theorem checkT_unresolved (env : Env)
    (h : ¬ ∃ uid udb, env.userId = some uid ∧ env.currentUser.isSome
          ∧ env.dbUser uid = some udb) :
    checkLessonPlanCreationEligibilityT env = (notEligibleAuth, []) := by
  unfold checkLessonPlanCreationEligibilityT
  cases hA : env.userId with
  | none => rfl
  | some uid =>
    cases hU : env.currentUser with
    | none => rfl
    | some u =>
      cases hD : env.dbUser uid with
      | none => simp only [hD]
      | some udb => exact absurd ⟨uid, udb, hA, by rw [hU]; rfl, hD⟩ h

theorem hasSubscriptionT_resolved (env : Env) (uid : String) (u : ClerkUser)
    (udb : DBUser) (cid : String)
    (hAuth : env.userId = some uid) (hUser : env.currentUser = some u)
    (hDB : env.dbUser uid = some udb)
    (hCid : udb.stripe_customer_id = some cid) (hNe : cid ≠ "") :
    hasSubscriptionT env =
      ({ isSubscribed := decide ((env.subscriptions cid).length > 0),
         subscriptionData := env.subscriptions cid },
       [CollabCall.subList cid]) := by
  simp only [hasSubscriptionT, hAuth, hUser, hDB, hCid]
  simp [hNe]

theorem eligibilityBody_remaining (env : Env) (udb : DBUser) :
    (eligibilityBody env udb).1.remainingGenerations = remainingOf env udb := by
  by_cases hr : remainingOf env udb = 0
  · simp only [eligibilityBody, if_pos hr]
    exact hr.symm
  · simp only [eligibilityBody, if_neg hr]

theorem eligibilityBody_isEligible (env : Env) (udb : DBUser) :
    (eligibilityBody env udb).1.isEligible = decide (0 < remainingOf env udb) := by
  by_cases hr : remainingOf env udb = 0
  · simp only [eligibilityBody, if_pos hr]
    simp [hr]
  · have hpos : 0 < remainingOf env udb :=
      lt_of_le_of_ne (le_max_left _ _) (Ne.symm hr)
    simp only [eligibilityBody, if_neg hr]
    simp [hpos]

theorem eligibilityBody_calls (env : Env) (udb : DBUser) :
    (eligibilityBody env udb).2
      = (hasSubscriptionT env).2 ++
        [CollabCall.usageCount udb.id (periodStartOf env) (periodEndOf env)] := by
  by_cases hr : remainingOf env udb = 0
  · simp only [eligibilityBody, if_pos hr]
  · simp only [eligibilityBody, if_neg hr]

theorem eligibilityBody_exhausted (env : Env) (udb : DBUser)
    (h : limitOf env ≤ generationCountOf env udb) :
    (eligibilityBody env udb).1 =
      { isEligible := false,
        message :=
          if isSubscribedOf env then subscriberExhaustedMessage (resetDateOf env)
          else freeTierExhaustedMessage (resetDateOf env),
        remainingGenerations := 0 } := by
  have hzero : remainingOf env udb = 0 := by
    unfold remainingOf; omega
  simp only [eligibilityBody, if_pos hzero]

theorem subscriptionDataOf_resolved (env : Env) (uid : String) (u : ClerkUser)
    (udb : DBUser) (cid : String)
    (hAuth : env.userId = some uid) (hUser : env.currentUser = some u)
    (hDB : env.dbUser uid = some udb)
    (hCid : udb.stripe_customer_id = some cid) (hNe : cid ≠ "") :
    subscriptionDataOf env = env.subscriptions cid := by
  unfold subscriptionDataOf
  rw [hasSubscriptionT_resolved env uid u udb cid hAuth hUser hDB hCid hNe]

theorem window_of_first_sub (env : Env) (s : StripeSubscription)
    (rest : List StripeSubscription)
    (hData : subscriptionDataOf env = s :: rest) :
    isSubscribedOf env = decide (s.status = "active")
    ∧ periodStartOf env = s.current_period_start * 1000
    ∧ periodEndOf env = s.current_period_end * 1000 := by
  refine ⟨?_, ?_, ?_⟩ <;>
    simp [isSubscribedOf, periodStartOf, periodEndOf, hData,
      billingIsSubscribed, billingPeriodStart, billingPeriodEnd]

theorem window_of_no_sub (env : Env)
    (hData : subscriptionDataOf env = []) :
    isSubscribedOf env = false
    ∧ periodStartOf env = env.now - 30 * 24 * 60 * 1000
    ∧ periodEndOf env = env.now := by
  refine ⟨?_, ?_, ?_⟩ <;>
    simp [isSubscribedOf, periodStartOf, periodEndOf, hData,
      billingIsSubscribed, billingPeriodStart, billingPeriodEnd]

/-- C1: for every resolved user the evaluator computes the generation limit
as 30 when the first returned subscription has status "active" and 10
otherwise, sets `remainingGenerations = max 0 (limit - count)`, and a
non-subscriber with 5 usage events in the billing window gets
`remainingGenerations = 5` and `isEligible = true`. -/
theorem C1_remaining_formula (env : Env) (uid : String) (u : ClerkUser)
    (udb : DBUser)
    (hAuth : env.userId = some uid) (hUser : env.currentUser = some u)
    (hDB : env.dbUser uid = some udb) :
    limitOf env = (match subscriptionDataOf env with
      | s :: _ => if s.status = "active" then (30 : Int) else 10
      | [] => 10)
    ∧ (checkLessonPlanCreationEligibility env).remainingGenerations
        = max 0 (limitOf env - generationCountOf env udb)
    ∧ (subscriptionDataOf env = [] → generationCountOf env udb = 5 →
        (checkLessonPlanCreationEligibility env).remainingGenerations = 5
        ∧ (checkLessonPlanCreationEligibility env).isEligible = true) := by
  have hck := checkT_resolved env uid u udb hAuth hUser hDB
  have hrem : (checkLessonPlanCreationEligibility env).remainingGenerations
      = remainingOf env udb := by
    unfold checkLessonPlanCreationEligibility
    rw [hck, eligibilityBody_remaining]
  refine ⟨?_, ?_, ?_⟩
  · unfold limitOf isSubscribedOf
    cases hS : subscriptionDataOf env with
    | nil => simp [billingIsSubscribed]
    | cons s rest =>
      simp only [billingIsSubscribed]
      by_cases hst : s.status = "active" <;> simp [hst]
  · rw [hrem]; rfl
  · intro hEmpty hCount
    obtain ⟨hSub, _, _⟩ := window_of_no_sub env hEmpty
    have hlim : limitOf env = 10 := by unfold limitOf; rw [hSub]; rfl
    constructor
    · rw [hrem]; unfold remainingOf; rw [hlim, hCount]; decide
    · unfold checkLessonPlanCreationEligibility
      rw [hck, eligibilityBody_isEligible]
      unfold remainingOf; rw [hlim, hCount]; decide

/-- C2: with no resolvable identity or no matching persisted user record, the
evaluator returns the not-eligible auth-required decision with 0 remaining
generations, without contacting the Subscription or Usage collaborators
(empty collaborator trace) and without throwing (the function is total). -/
theorem C2_unauthenticated_decision (env : Env)
    (h : ¬ ∃ uid udb, env.userId = some uid ∧ env.currentUser.isSome
          ∧ env.dbUser uid = some udb) :
    checkLessonPlanCreationEligibilityT env =
      ({ isEligible := false, message := authRequiredMessage,
         remainingGenerations := 0 }, ([] : List CollabCall)) :=
  checkT_unresolved env h

/-- C7: two evaluations against the same resolved identity, subscription
data, usage events, and clock yield identical decisions. -/
theorem C7_idempotent (env env' : Env)
    (h1 : env'.userId = env.userId) (h2 : env'.currentUser = env.currentUser)
    (h3 : env'.dbUser = env.dbUser) (h4 : env'.subscriptions = env.subscriptions)
    (h5 : env'.lessonPlans = env.lessonPlans) (h6 : env'.now = env.now)
    (h7 : env'.formatDate = env.formatDate)
    (h8 : env'.newCustomerId = env.newCustomerId) :
    checkLessonPlanCreationEligibility env'
      = checkLessonPlanCreationEligibility env := by
  have henv : env' = env := by
    cases env'; cases env; simp_all
  rw [henv]

/-- C8: every returned decision satisfies
`0 ≤ remainingGenerations ≤ 30` and `isEligible = (remainingGenerations > 0)`. -/
theorem C8_decision_invariant (env : Env) :
    0 ≤ (checkLessonPlanCreationEligibility env).remainingGenerations
    ∧ (checkLessonPlanCreationEligibility env).remainingGenerations ≤ 30
    ∧ (checkLessonPlanCreationEligibility env).isEligible
        = decide (0 < (checkLessonPlanCreationEligibility env).remainingGenerations) := by
  by_cases hres : ∃ uid udb, env.userId = some uid ∧ env.currentUser.isSome
      ∧ env.dbUser uid = some udb
  · obtain ⟨uid, udb, hA, hU, hD⟩ := hres
    obtain ⟨u, hU'⟩ := Option.isSome_iff_exists.mp hU
    have hck := checkT_resolved env uid u udb hA hU' hD
    have hrem : (checkLessonPlanCreationEligibility env).remainingGenerations
        = remainingOf env udb := by
      unfold checkLessonPlanCreationEligibility; rw [hck, eligibilityBody_remaining]
    have hel : (checkLessonPlanCreationEligibility env).isEligible
        = decide (0 < remainingOf env udb) := by
      unfold checkLessonPlanCreationEligibility; rw [hck, eligibilityBody_isEligible]
    have hcnt : (0:Int) ≤ generationCountOf env udb := by
      unfold generationCountOf; exact Int.natCast_nonneg _
    have hlim : limitOf env = 30 ∨ limitOf env = 10 := by
      unfold limitOf; by_cases h : isSubscribedOf env <;> simp [h]
    refine ⟨?_, ?_, ?_⟩
    · rw [hrem]; exact le_max_left _ _
    · rw [hrem]; unfold remainingOf; rcases hlim with h | h <;> rw [h] <;> omega
    · rw [hel, hrem]
  · have hck := checkT_unresolved env hres
    unfold checkLessonPlanCreationEligibility
    rw [hck]
    exact ⟨le_refl 0, by decide, rfl⟩

/-- C9: when the database record already holds a (non-empty)
`stripe_customer_id`, `createCustomerIfNull` returns it and performs no
customer creation and no database update (empty effect list). -/
theorem C9_existing_customer (env : Env) (u : ClerkUser) (udb : DBUser)
    (cid : String)
    (hUser : env.currentUser = some u) (hDB : env.dbUser u.id = some udb)
    (hCid : udb.stripe_customer_id = some cid) (hNe : cid ≠ "") :
    createCustomerIfNull env = Except.ok (cid, ([] : List Effect)) := by
  simp only [createCustomerIfNull, hUser, hDB, hCid]
  rw [if_neg hNe]

theorem remaining_inactive_first (env : Env) (uid : String) (u : ClerkUser)
    (udb : DBUser) (cid : String) (s : StripeSubscription)
    (rest : List StripeSubscription)
    (hAuth : env.userId = some uid) (hUser : env.currentUser = some u)
    (hDB : env.dbUser uid = some udb)
    (hCid : udb.stripe_customer_id = some cid) (hNe : cid ≠ "")
    (hSubs : env.subscriptions cid = s :: rest) (hStatus : s.status ≠ "active") :
    (checkLessonPlanCreationEligibility env).remainingGenerations
      = max 0 (10 - (countLessonPlans env.lessonPlans udb.id
          (s.current_period_start * 1000) (s.current_period_end * 1000) : Int)) := by
  have hData : subscriptionDataOf env = s :: rest := by
    rw [subscriptionDataOf_resolved env uid u udb cid hAuth hUser hDB hCid hNe, hSubs]
  obtain ⟨hSub, hPS, hPE⟩ := window_of_first_sub env s rest hData
  have hlim : limitOf env = 10 := by
    unfold limitOf; rw [hSub]; simp [hStatus]
  have hck := checkT_resolved env uid u udb hAuth hUser hDB
  unfold checkLessonPlanCreationEligibility
  rw [hck, eligibilityBody_remaining]
  unfold remainingOf generationCountOf
  rw [hlim, hPS, hPE]

/-- C3: for a user whose first returned subscription has a non-"active"
status with period boundaries P, usage is counted within
`[P.start, P.end]` (the Usage collaborator is queried with exactly that
window), yet the free-tier limit of 10 applies rather than 30. -/
theorem C3_inactive_subscription (env : Env) (uid : String) (u : ClerkUser)
    (udb : DBUser) (cid : String) (s : StripeSubscription)
    (rest : List StripeSubscription)
    (hAuth : env.userId = some uid) (hUser : env.currentUser = some u)
    (hDB : env.dbUser uid = some udb)
    (hCid : udb.stripe_customer_id = some cid) (hNe : cid ≠ "")
    (hSubs : env.subscriptions cid = s :: rest) (hStatus : s.status ≠ "active") :
    CollabCall.usageCount udb.id (s.current_period_start * 1000)
        (s.current_period_end * 1000) ∈ (checkLessonPlanCreationEligibilityT env).2
    ∧ limitOf env = 10
    ∧ (checkLessonPlanCreationEligibility env).remainingGenerations
        = max 0 (10 - (countLessonPlans env.lessonPlans udb.id
            (s.current_period_start * 1000) (s.current_period_end * 1000) : Int)) := by
  have hData : subscriptionDataOf env = s :: rest := by
    rw [subscriptionDataOf_resolved env uid u udb cid hAuth hUser hDB hCid hNe, hSubs]
  obtain ⟨hSub, hPS, hPE⟩ := window_of_first_sub env s rest hData
  have hck := checkT_resolved env uid u udb hAuth hUser hDB
  refine ⟨?_, ?_, ?_⟩
  · rw [hck, eligibilityBody_calls, hPS, hPE]
    simp
  · unfold limitOf; rw [hSub]; simp [hStatus]
  · exact remaining_inactive_first env uid u udb cid s rest
      hAuth hUser hDB hCid hNe hSubs hStatus

/-- C4: for a resolved user with an empty subscription list, the evaluator
sets `isSubscribed = false` and queries usage over a window ending at the
current time and starting 43,200 seconds (43,200,000 ms, 12 hours — not 30
days) before it. -/
theorem C4_no_subscription_window (env : Env) (uid : String) (u : ClerkUser)
    (udb : DBUser)
    (hAuth : env.userId = some uid) (hUser : env.currentUser = some u)
    (hDB : env.dbUser uid = some udb)
    (hEmpty : subscriptionDataOf env = []) :
    isSubscribedOf env = false
    ∧ periodEndOf env = env.now
    ∧ periodStartOf env = env.now - 43200 * 1000
    ∧ CollabCall.usageCount udb.id (env.now - 43200 * 1000) env.now
        ∈ (checkLessonPlanCreationEligibilityT env).2 := by
  obtain ⟨hSub, hPS, hPE⟩ := window_of_no_sub env hEmpty
  have hck := checkT_resolved env uid u udb hAuth hUser hDB
  have hPS' : periodStartOf env = env.now - 43200 * 1000 := by
    rw [hPS]; norm_num
  refine ⟨hSub, hPE, hPS', ?_⟩
  rw [hck, eligibilityBody_calls, hPS', hPE]
  simp

/-- C5 (amended): for a resolved non-subscriber whose quota is exhausted, the
reset date in the message is derived from the current time plus 3,600,024
milliseconds (`now + 24 + 60*60*1000` in ms: 24 ms plus one hour), not the
current time plus 24 hours. -/
theorem C5_amended_reset_offset (env : Env) (uid : String) (u : ClerkUser)
    (udb : DBUser)
    (hAuth : env.userId = some uid) (hUser : env.currentUser = some u)
    (hDB : env.dbUser uid = some udb)
    (hNotSub : isSubscribedOf env = false)
    (hCount : 10 ≤ generationCountOf env udb) :
    (checkLessonPlanCreationEligibility env).message
      = freeTierExhaustedMessage (env.formatDate (env.now + 3600024))
    ∧ env.now + 24 + 60 * 60 * 1000 = env.now + 3600024
    ∧ (3600024 : Int) ≠ 24 * 60 * 60 * 1000 := by
  have harith : env.now + 24 + 60 * 60 * 1000 = env.now + 3600024 := by ring
  have hlim : limitOf env ≤ generationCountOf env udb := by
    unfold limitOf; rw [hNotSub]; simpa using hCount
  have hck := checkT_resolved env uid u udb hAuth hUser hDB
  refine ⟨?_, harith, by norm_num⟩
  unfold checkLessonPlanCreationEligibility
  rw [hck, eligibilityBody_exhausted env udb hlim]
  unfold resetDateOf
  rw [hNotSub]
  simp only [Bool.false_eq_true, if_false]
  rw [harith]

/-- C5 (counterexample to the claim as stated): at a concrete exhausted
non-subscriber environment, the reset timestamp embedded in the message is
`now + 3600024` ms, not `now + 24*1000 + 3600` ms (24 seconds plus 3600
milliseconds) as the claim asserts. -/
theorem C5_counterexample :
    (checkLessonPlanCreationEligibility envFree10).message
      = freeTierExhaustedMessage (toString (53600024 : Int))
    ∧ (53600024 : Int) = envFree10.now + 24 + 60 * 60 * 1000
    ∧ (53600024 : Int) ≠ envFree10.now + 24 * 1000 + 3600
    ∧ (checkLessonPlanCreationEligibility envFree10).message
        ≠ freeTierExhaustedMessage
            (toString (envFree10.now + 24 * 1000 + 3600 : Int)) := by
  refine ⟨by decide, by decide, by decide, by decide⟩

/-- C6: a usage event is counted iff its creation timestamp lies within
`[periodStart, periodEnd]`, both endpoints inclusive; an active subscriber
with exactly 30 events so counted gets `isEligible = false`,
`remainingGenerations = 0`, and a message whose reset date is derived from
`current_period_end`. -/
theorem C6_inclusive_window_and_exhaustion (env : Env) (uid : String)
    (u : ClerkUser) (udb : DBUser) (cid : String) (s : StripeSubscription)
    (rest : List StripeSubscription)
    (hAuth : env.userId = some uid) (hUser : env.currentUser = some u)
    (hDB : env.dbUser uid = some udb)
    (hCid : udb.stripe_customer_id = some cid) (hNe : cid ≠ "")
    (hSubs : env.subscriptions cid = s :: rest) (hActive : s.status = "active")
    (hCount : countLessonPlans env.lessonPlans udb.id
        (s.current_period_start * 1000) (s.current_period_end * 1000) = 30) :
    (∀ (plans : List LessonPlan) (w : String) (a b : Int) (p : LessonPlan),
        p ∈ countedPlans plans w a b
          ↔ p ∈ plans ∧ p.userId = w ∧ a ≤ p.createdAt ∧ p.createdAt ≤ b)
    ∧ checkLessonPlanCreationEligibility env =
        { isEligible := false,
          message := subscriberExhaustedMessage
            (env.formatDate (s.current_period_end * 1000)),
          remainingGenerations := 0 } := by
  constructor
  · intro plans w a b p
    simp [countedPlans, List.mem_filter]
  · have hData : subscriptionDataOf env = s :: rest := by
      rw [subscriptionDataOf_resolved env uid u udb cid hAuth hUser hDB hCid hNe,
        hSubs]
    obtain ⟨hSub, hPS, hPE⟩ := window_of_first_sub env s rest hData
    have hSub' : isSubscribedOf env = true := by rw [hSub]; simp [hActive]
    have hlim : limitOf env = 30 := by unfold limitOf; rw [hSub']; rfl
    have hcnt : generationCountOf env udb = 30 := by
      unfold generationCountOf; rw [hPS, hPE, hCount]; rfl
    have hle : limitOf env ≤ generationCountOf env udb := by rw [hlim, hcnt]
    have hck := checkT_resolved env uid u udb hAuth hUser hDB
    unfold checkLessonPlanCreationEligibility
    rw [hck, eligibilityBody_exhausted env udb hle]
    unfold resetDateOf
    rw [hSub', hPE]
    simp

/-- C10: `hasSubscription` reports `isSubscribed = true` exactly when the
subscription list returned for the user's customer id is non-empty,
regardless of status; in particular a user whose only subscription is
canceled is reported as subscribed, while the eligibility evaluator applies
the free-tier limit of 10 to them. -/
theorem C10_hasSubscription_status_blind (env : Env) (uid : String)
    (u : ClerkUser) (udb : DBUser) (cid : String)
    (hAuth : env.userId = some uid) (hUser : env.currentUser = some u)
    (hDB : env.dbUser uid = some udb)
    (hCid : udb.stripe_customer_id = some cid) (hNe : cid ≠ "") :
    ((hasSubscription env).isSubscribed = true ↔ env.subscriptions cid ≠ [])
    ∧ (∀ (s : StripeSubscription) (rest : List StripeSubscription),
        env.subscriptions cid = s :: rest → s.status = "canceled" →
        (hasSubscription env).isSubscribed = true
        ∧ (checkLessonPlanCreationEligibility env).remainingGenerations
            = max 0 (10 - (countLessonPlans env.lessonPlans udb.id
                (s.current_period_start * 1000)
                (s.current_period_end * 1000) : Int))) := by
  have hres := hasSubscriptionT_resolved env uid u udb cid hAuth hUser hDB hCid hNe
  have hiff : (hasSubscription env).isSubscribed = true
      ↔ env.subscriptions cid ≠ [] := by
    unfold hasSubscription
    rw [hres]
    simp [List.length_pos]
  refine ⟨hiff, ?_⟩
  intro s rest hSubs hCanceled
  refine ⟨hiff.mpr (by rw [hSubs]; simp), ?_⟩
  exact remaining_inactive_first env uid u udb cid s rest hAuth hUser hDB hCid hNe
    hSubs (by rw [hCanceled]; decide)

theorem C1_remaining_formula_witness :
    (checkLessonPlanCreationEligibility envFree5).remainingGenerations = 5
    ∧ (checkLessonPlanCreationEligibility envFree5).isEligible = true := by
  have h := C1_remaining_formula envFree5 "user_1" demoUser demoDBFree rfl rfl
    (by decide)
  exact h.2.2 (by decide) (by decide)

theorem C2_unauthenticated_decision_witness :
    checkLessonPlanCreationEligibilityT envUnauth =
      ({ isEligible := false, message := authRequiredMessage,
         remainingGenerations := 0 }, ([] : List CollabCall)) :=
  C2_unauthenticated_decision envUnauth
    (by rintro ⟨uid, udb, hA, hU, hD⟩; exact Option.noConfusion hA)

theorem C3_inactive_subscription_witness :
    CollabCall.usageCount "user_1" 1000000 2000000
        ∈ (checkLessonPlanCreationEligibilityT envCanceled).2
    ∧ limitOf envCanceled = 10
    ∧ (checkLessonPlanCreationEligibility envCanceled).remainingGenerations
        = max 0 (10 - (countLessonPlans envCanceled.lessonPlans "user_1"
            1000000 2000000 : Int)) :=
  C3_inactive_subscription envCanceled "user_1" demoUser demoDBCus "cus_1"
    canceledSub [] rfl rfl (by decide) rfl (by decide) (by decide) (by decide)

theorem C4_no_subscription_window_witness :
    isSubscribedOf baseEnv = false
    ∧ periodEndOf baseEnv = baseEnv.now
    ∧ periodStartOf baseEnv = baseEnv.now - 43200 * 1000
    ∧ CollabCall.usageCount "user_1" (baseEnv.now - 43200 * 1000) baseEnv.now
        ∈ (checkLessonPlanCreationEligibilityT baseEnv).2 :=
  C4_no_subscription_window baseEnv "user_1" demoUser demoDBFree rfl rfl
    (by decide) (by decide)

theorem C5_amended_reset_offset_witness :
    (checkLessonPlanCreationEligibility envFree10).message
      = freeTierExhaustedMessage (envFree10.formatDate (envFree10.now + 3600024))
    ∧ envFree10.now + 24 + 60 * 60 * 1000 = envFree10.now + 3600024
    ∧ (3600024 : Int) ≠ 24 * 60 * 60 * 1000 :=
  C5_amended_reset_offset envFree10 "user_1" demoUser demoDBFree rfl rfl
    (by decide) (by decide) (by decide)

theorem C6_inclusive_window_and_exhaustion_witness :
    checkLessonPlanCreationEligibility envActive30 =
      { isEligible := false,
        message := subscriberExhaustedMessage (toString (2000000 : Int)),
        remainingGenerations := 0 }
    ∧ ({ userId := "user_1", createdAt := 1500000 } : LessonPlan)
        ∈ countedPlans envActive30.lessonPlans "user_1" 1000000 2000000 := by
  have h := C6_inclusive_window_and_exhaustion envActive30 "user_1" demoUser
    demoDBCus "cus_1" activeSub [] rfl rfl (by decide) rfl (by decide)
    (by decide) (by decide) (by decide)
  refine ⟨h.2, ?_⟩
  exact (h.1 envActive30.lessonPlans "user_1" 1000000 2000000
    ⟨"user_1", 1500000⟩).mpr (by decide)

theorem C7_idempotent_witness :
    checkLessonPlanCreationEligibility envFree5Again
      = checkLessonPlanCreationEligibility envFree5 :=
  C7_idempotent envFree5 envFree5Again rfl rfl rfl rfl rfl rfl rfl rfl

theorem C9_existing_customer_witness :
    createCustomerIfNull envCus = Except.ok ("cus_1", ([] : List Effect)) :=
  C9_existing_customer envCus demoUser demoDBCus "cus_1" rfl (by decide) rfl
    (by decide)

theorem C10_hasSubscription_status_blind_witness :
    (hasSubscription envCanceled).isSubscribed = true
    ∧ (checkLessonPlanCreationEligibility envCanceled).remainingGenerations = 7 := by
  have h := C10_hasSubscription_status_blind envCanceled "user_1" demoUser
    demoDBCus "cus_1" rfl rfl (by decide) rfl (by decide)
  have h2 := h.2 canceledSub [] (by decide) rfl
  refine ⟨h2.1, ?_⟩
  rw [h2.2]
  decide
